import Mathlib

/-!
Verification of the self-play dataset builder and hyperparameter sweep in
train-ml-bot.py. The game engine, the bots and the feature extractor are
external collaborators; they are modelled abstractly (an oracle per game for
the dataset layer, an explicit engine record for the per-game loop), while
the control flow of the script itself is embedded faithfully.
-/

namespace TrainMLBot

/-- Result of one simulated game as consumed by the labeling loop of
create_dataset: the buffered feature vectors (state_vectors) and the
engine-reported winner from state.winner(). The score component is unused
by the labeling code and omitted. -/
structure GameTrace (F : Type) where
  vectors : List F
  winner : Int
  deriving Repr, DecidableEq

/-- The player argument of create_dataset: either a single bot, or a roster
given as a Python list, detected by the isinstance(player, list) test. -/
inductive PlayerArg (P : Type) where
  | single (p : P)
  | roster (ps : List P)

/-- Strategy assigned to game index g. A roster is consumed through
cycle(player) and one next(player_list) call per game, i.e. entry g mod
length with wraparound; none models the StopIteration raised by next on
cycle of an empty list. -/
def playersFrom {P : Type} : PlayerArg P → Nat → Option P
  | .single p, _ => some p
  | .roster ps, g => ps[g % ps.length]?

/-- Indices of the games actually simulated by the loop
for g in range(games-1). -/
def simulatedGameIndices (games : Nat) : List Nat :=
  List.range (games - 1)

/-- Per-game strategy assignment across one whole run of create_dataset. -/
def assignedPlayers {P : Type} (pa : PlayerArg P) (games : Nat) : List (Option P) :=
  (simulatedGameIndices games).map (playersFrom pa)

/-- Mutable state of the dataset accumulation in create_dataset: the lists
data and target, and the local variable result, which is unbound (none)
until first assigned and keeps its value across loop iterations and across
games. -/
structure DSState (F : Type) where
  data : List F
  target : List String
  result : Option String
  deriving Repr, DecidableEq

/-- A run of create_dataset can abort: nameError models the Python NameError
raised by target.append(result) when result is still unbound (carrying the
loop state at the failure point); emptyRoster models the StopIteration from
drawing a player out of an empty roster. -/
inductive RunError (F : Type) where
  | nameError (st : DSState F)
  | emptyRoster
  deriving Repr, DecidableEq

/-- One iteration of the loop for state_vector in state_vectors: append the
vector to data, run the conditional assignment (winner == 1 sets result to
"won", winner == 2 sets it to "lost", anything else leaves result as it
was), then target.append(result), which fails when result is unbound. -/
def labelStep {F : Type} (winner : Int) (sv : F) (s : DSState F) :
    Except (RunError F) (DSState F) :=
  let data1 := s.data ++ [sv]
  let result1 := if winner = 1 then some "won"
    else if winner = 2 then some "lost" else s.result
  match result1 with
  | none => .error (.nameError ⟨data1, s.target, none⟩)
  | some r => .ok ⟨data1, s.target ++ [r], some r⟩

/-- The labeling loop of one game, over all of its buffered vectors. -/
def labelGame {F : Type} (winner : Int) : List F → DSState F →
    Except (RunError F) (DSState F)
  | [], s => .ok s
  | sv :: rest, s =>
    match labelStep winner sv s with
    | .error e => .error e
    | .ok s1 => labelGame winner rest s1

/-- One pass of the outer game loop for game index g: draw the strategy for
this game, obtain the trace of the game it plays through the oracle sim
(which stands for State.generate, the while loop and state.winner()), and
run the labeling loop over the buffered vectors. -/
def gameStep {F P : Type} (sim : Nat → P → GameTrace F) (pa : PlayerArg P)
    (g : Nat) (s : DSState F) : Except (RunError F) (DSState F) :=
  match playersFrom pa g with
  | none => .error .emptyRoster
  | some p => labelGame (sim g p).winner (sim g p).vectors s

/-- The first k iterations of the outer game loop, starting from empty data
and target and an unbound result. -/
def runGames {F P : Type} (sim : Nat → P → GameTrace F) (pa : PlayerArg P) :
    Nat → Except (RunError F) (DSState F)
  | 0 => .ok ⟨[], [], none⟩
  | k + 1 =>
    match runGames sim pa k with
    | .error e => .error e
    | .ok s => gameStep sim pa k s

/-- create_dataset, as far as data and target accumulation is concerned:
the outer loop runs for g in range(games-1). -/
def create_dataset {F P : Type} (sim : Nat → P → GameTrace F)
    (pa : PlayerArg P) (games : Nat) : Except (RunError F) (DSState F) :=
  runGames sim pa (games - 1)

/-- Label attached to a finished game: winner 1 maps to "won" and winner 2
maps to "lost". Only meaningful when the winner is 1 or 2. -/
def gameLabel (w : Int) : String :=
  if w = 1 then "won" else "lost"

/-- Concatenation of per-game blocks for games 0 to k-1, in game order. -/
def gamesConcat {α : Type} (f : Nat → List α) : Nat → List α
  | 0 => []
  | k + 1 => gamesConcat f k ++ f k

/-- Feature rows expected in data after k games. -/
def expectedData {F P : Type} (sim : Nat → P → GameTrace F) (pl : Nat → P)
    (k : Nat) : List F :=
  gamesConcat (fun g => (sim g (pl g)).vectors) k

/-- Labels expected in target after k games: one per-game block of identical
labels per game, in game order. -/
def expectedTarget {F P : Type} (sim : Nat → P → GameTrace F) (pl : Nat → P)
    (k : Nat) : List String :=
  gamesConcat
    (fun g => List.replicate (sim g (pl g)).vectors.length
      (gameLabel (sim g (pl g)).winner)) k

/-- Value of the variable result after k games: the label of the last game
that buffered at least one vector, or unbound if there was none. -/
def expectedResult {F P : Type} (sim : Nat → P → GameTrace F) (pl : Nat → P) :
    Nat → Option String
  | 0 => none
  | k + 1 =>
    if (sim k (pl k)).vectors.isEmpty then expectedResult sim pl k
    else some (gameLabel (sim k (pl k)).winner)

/-- When the winner is 1 or 2, the labeling loop of one game succeeds,
appends all buffered vectors to data, appends one identical label per
vector to target, and leaves result holding that label when at least one
vector was buffered. -/
theorem labelGame_ok {F : Type} (w : Int) (hw : w = 1 ∨ w = 2) (vs : List F)
    (s : DSState F) :
    labelGame w vs s = .ok ⟨s.data ++ vs,
      s.target ++ List.replicate vs.length (gameLabel w),
      if vs.isEmpty then s.result else some (gameLabel w)⟩ := by
  induction vs generalizing s with
  | nil => simp [labelGame]
  | cons v rest ih =>
    have hstep : labelStep w v s =
        .ok ⟨s.data ++ [v], s.target ++ [gameLabel w], some (gameLabel w)⟩ := by
      rcases hw with h | h <;> subst h <;> rfl
    rw [labelGame, hstep]
    show labelGame w rest ⟨s.data ++ [v], s.target ++ [gameLabel w],
      some (gameLabel w)⟩ = _
    rw [ih ⟨s.data ++ [v], s.target ++ [gameLabel w], some (gameLabel w)⟩]
    simp [List.replicate_succ, List.append_assoc]

/-- When every simulated game has an assigned strategy and reports winner 1
or 2, the first k iterations of the game loop succeed and produce exactly
the expected data, target and result accumulators. -/
theorem runGames_ok {F P : Type} (sim : Nat → P → GameTrace F)
    (pa : PlayerArg P) (pl : Nat → P) (k : Nat)
    (hpl : ∀ g, g < k → playersFrom pa g = some (pl g))
    (hw : ∀ g, g < k → (sim g (pl g)).winner = 1 ∨ (sim g (pl g)).winner = 2) :
    runGames sim pa k =
      .ok ⟨expectedData sim pl k, expectedTarget sim pl k,
        expectedResult sim pl k⟩ := by
  induction k with
  | zero => rfl
  | succ k ih =>
    rw [runGames, ih (fun g hg => hpl g (Nat.lt_succ_of_lt hg))
      (fun g hg => hw g (Nat.lt_succ_of_lt hg))]
    show gameStep sim pa k _ = _
    rw [gameStep, hpl k (Nat.lt_succ_self k)]
    show labelGame _ _ _ = _
    rw [labelGame_ok _ (hw k (Nat.lt_succ_self k))]
    simp only [expectedData, expectedTarget, expectedResult, gamesConcat]

/-- The expected accumulators always pair one label with one feature row. -/
theorem expected_length_eq {F P : Type} (sim : Nat → P → GameTrace F)
    (pl : Nat → P) (k : Nat) :
    (expectedData sim pl k).length = (expectedTarget sim pl k).length := by
  induction k with
  | zero => rfl
  | succ k ih =>
    simp [expectedData, expectedTarget, gamesConcat] at *
    omega

/-- Every label of the expected target is "won" or "lost". -/
theorem expected_label_mem {F P : Type} (sim : Nat → P → GameTrace F)
    (pl : Nat → P) (k : Nat) :
    ∀ l ∈ expectedTarget sim pl k, l = "won" ∨ l = "lost" := by
  induction k with
  | zero => intro l hl; cases hl
  | succ k ih =>
    intro l hl
    rw [expectedTarget, gamesConcat] at hl
    rcases List.mem_append.mp hl with h | h
    · exact ih l h
    · have := (List.eq_of_mem_replicate h)
      subst this
      unfold gameLabel
      split
      · exact Or.inl rfl
      · exact Or.inr rfl

/-- The external collaborators used by one game of create_dataset: the state
engine operations, the feature extractor and the strategy interface, all
opaque to the pipeline. -/
structure Engine (S M F P : Type) where
  finished : S → Bool
  get_phase : S → Int
  whose_turn : S → Int
  clone : S → Int → S
  next : S → M → S
  features : S → F
  get_move : P → S → M

/-- The state handed to the feature extractor and to the strategy at one
decision point: in phase 1 a clone carrying the signature of the player
whose turn it is (the information-obscured view), otherwise the state
unmodified. -/
def given_state_of {S M F P : Type} (e : Engine S M F P) (state : S) : S :=
  if e.get_phase state = 1 then e.clone state (e.whose_turn state) else state

/-- The while loop of one game in create_dataset, with fuel to bound the
number of decision points (none models failure to finish within fuel).
Each pass buffers the features of the given state, asks the strategy for a
move on that same given state, and advances the real state. Returns the
buffered vectors and the terminal state. -/
def playLoop {S M F P : Type} (e : Engine S M F P) (p : P) :
    Nat → S → List F → Option (List F × S)
  | 0, _, _ => none
  | fuel + 1, state, acc =>
    if e.finished state then some (acc, state)
    else
      let given_state := if e.get_phase state = 1
        then e.clone state (e.whose_turn state) else state
      playLoop e p fuel (e.next state (e.get_move p given_state))
        (acc ++ [e.features given_state])

/-- Model file name derived from a sweep configuration, as built at the
model_path assignment: the literal "model", the layer count, the literal
"x", the layer width, and the serialization suffix. -/
def model_path (n w : Nat) : String :=
  "model" ++ toString n ++ "x" ++ toString w ++ ".pkl"

/-- Sweep iteration order: outer loop over the layer counts, inner loop
over the layer widths. -/
def sweepConfigs (ns ws : List Nat) : List (Nat × Nat) :=
  ns.flatMap (fun n => ws.map (fun w => (n, w)))

/-- Model artifact names produced by the sweep, in creation order. -/
def sweep_model_paths (ns ws : List Nat) : List String :=
  (sweepConfigs ns ws).map (fun c => model_path c.1 c.2)

/-- The hidden layer shape passed to the classifier for a configuration
with n layers of width w: the comprehension over range(n_layers) repeating
the width. -/
def hidden_layer_sizes (n w : Nat) : List Nat :=
  (List.range n).map (fun _ => w)

/-- The top-level regeneration test: create_dataset is invoked exactly when
the overwrite option is set or no file exists at the dataset path. -/
def regenerateDataset (overwrite fileExists : Bool) : Bool :=
  overwrite || !fileExists

/-- Effect of the top-level script on the dataset file, given the file
contents before the run (none when no file exists) and the dataset a fresh
generation would write: create_dataset opens and rewrites the path exactly
when the regeneration test fires; otherwise no simulation runs and the
existing file is reused unchanged. -/
def datasetFileAfter {D : Type} (overwrite : Bool) (existing : Option D)
    (fresh : D) : Option D :=
  if regenerateDataset overwrite existing.isSome then some fresh else existing

/-- Concrete oracles used to instantiate the theorems below on closed
inputs. Every game buffers two vectors and is won by player 1. -/
def simW : Nat → Unit → GameTrace Nat := fun g _ => ⟨[g, g + 1], 1⟩

/-- Concrete assignment function matching a single-bot run. -/
def plW : Nat → Unit := fun _ => ()

/-- Concrete oracle where game g buffers g vectors (game 0 buffers none)
and every game is won by player 2. -/
def simV : Nat → Unit → GameTrace Nat := fun g _ => ⟨List.replicate g 7, 2⟩

/-- Concrete oracle for a run in which the second game reports a winner
outside of 1 and 2. -/
def simX : Nat → Unit → GameTrace Nat :=
  fun g _ => if g = 0 then ⟨[1, 2], 1⟩ else ⟨[3, 4], 5⟩

/-- Concrete oracle offering distinct traces for game 0 and game 1. -/
def simQ : Nat → Unit → GameTrace Nat :=
  fun g _ => if g = 0 then ⟨[10, 11], 1⟩ else ⟨[20, 21, 22], 1⟩

/-- C1: with games = 2 the builder simulates only one game (the loop is
for g in range(games-1)), so the dataset holds only the two records of
game 0 and misses the three records the trace of game 1 would contribute;
the claim of exactly N simulated games for input N fails at N = 2. -/
theorem create_dataset_game_count_off_by_one :
    create_dataset simQ (PlayerArg.single ()) 2
      = .ok ⟨[10, 11], ["won", "won"], some "won"⟩
    ∧ (simulatedGameIndices 2).length = 1
    ∧ (assignedPlayers (PlayerArg.single () : PlayerArg Unit) 2).length = 1 :=
  ⟨rfl, rfl, rfl⟩

/-- C2: with a roster of three bots and games = 7, only six games are
simulated, so the assignment order is the first six round-robin entries
and the seventh assignment claimed by the spec never happens. -/
theorem roster_assignment_off_by_one :
    assignedPlayers (PlayerArg.roster [0, 1, 2] : PlayerArg Nat) 7
      = [some 0, some 1, some 2, some 0, some 1, some 2]
    ∧ (assignedPlayers (PlayerArg.roster [0, 1, 2] : PlayerArg Nat) 7).length = 6 :=
  ⟨by decide, by decide⟩

/-- C3: when every simulated game has a strategy and reports winner 1 or 2,
the run succeeds, the data and target sequences have equal length, and each
successful labeling step appends exactly one feature row and exactly one
label, so the parity holds at every point of the construction. -/
theorem dataset_length_parity {F P : Type} (sim : Nat → P → GameTrace F)
    (pa : PlayerArg P) (pl : Nat → P) (k : Nat)
    (hpl : ∀ g, g < k → playersFrom pa g = some (pl g))
    (hw : ∀ g, g < k → (sim g (pl g)).winner = 1 ∨ (sim g (pl g)).winner = 2) :
    (runGames sim pa k = .ok ⟨expectedData sim pl k, expectedTarget sim pl k,
        expectedResult sim pl k⟩
      ∧ (expectedData sim pl k).length = (expectedTarget sim pl k).length)
    ∧ ∀ (w : Int) (sv : F) (t : DSState F), (w = 1 ∨ w = 2) →
        ∃ u, labelStep w sv t = .ok u
          ∧ u.data.length = t.data.length + 1
          ∧ u.target.length = t.target.length + 1 := by
  refine ⟨⟨runGames_ok sim pa pl k hpl hw, expected_length_eq sim pl k⟩, ?_⟩
  intro w sv t hw12
  rcases hw12 with h1 | h1 <;> subst h1
  · exact ⟨_, rfl, by simp, by simp⟩
  · exact ⟨_, rfl, by simp, by simp⟩

/-- Closed instance of dataset_length_parity at a two-game run. -/
theorem dataset_length_parity_witness :
    runGames simW (PlayerArg.single ()) 2
      = .ok ⟨expectedData simW plW 2, expectedTarget simW plW 2,
        expectedResult simW plW 2⟩
    ∧ (expectedData simW plW 2).length = (expectedTarget simW plW 2).length :=
  (dataset_length_parity simW (PlayerArg.single ()) plW 2
    (fun _ _ => rfl) (fun _ _ => Or.inl rfl)).1

/-- C4: a game with winner 1 labels every one of its buffered vectors
"won" and a game with winner 2 labels every one of them "lost"; under the
precondition that each game reports winner 1 or 2, every label of the
resulting dataset is "won" or "lost". -/
theorem labels_from_winner {F P : Type} (sim : Nat → P → GameTrace F)
    (pa : PlayerArg P) (pl : Nat → P) (k : Nat)
    (hpl : ∀ g, g < k → playersFrom pa g = some (pl g))
    (hw : ∀ g, g < k → (sim g (pl g)).winner = 1 ∨ (sim g (pl g)).winner = 2) :
    (∀ (vs : List F) (t : DSState F),
        labelGame 1 vs t = .ok ⟨t.data ++ vs,
          t.target ++ List.replicate vs.length "won",
          if vs.isEmpty then t.result else some "won"⟩
      ∧ labelGame 2 vs t = .ok ⟨t.data ++ vs,
          t.target ++ List.replicate vs.length "lost",
          if vs.isEmpty then t.result else some "lost"⟩)
    ∧ ∃ s, runGames sim pa k = .ok s
        ∧ ∀ l ∈ s.target, l = "won" ∨ l = "lost" := by
  refine ⟨fun vs t => ⟨labelGame_ok 1 (Or.inl rfl) vs t,
    labelGame_ok 2 (Or.inr rfl) vs t⟩, ?_⟩
  exact ⟨_, runGames_ok sim pa pl k hpl hw, expected_label_mem sim pl k⟩

/-- Closed instance of labels_from_winner on a one-vector game. -/
theorem labels_from_winner_witness :
    labelGame 1 [9] (⟨[], [], none⟩ : DSState Nat)
      = .ok ⟨[] ++ [9], [] ++ List.replicate [9].length "won",
        if ([9] : List Nat).isEmpty then none else some "won"⟩ :=
  ((labels_from_winner simW (PlayerArg.single ()) plW 1
    (fun _ _ => rfl) (fun _ _ => Or.inl rfl)).1 [9] ⟨[], [], none⟩).1

/-- C5: under the same preconditions the dataset decomposes game by game:
passing from g games to g+1 games appends the vectors of game g as one
contiguous block of data and one block of identical labels to target, and
the full run produces exactly these concatenations in game order. -/
theorem uniform_contiguous_game_labels {F P : Type} (sim : Nat → P → GameTrace F)
    (pa : PlayerArg P) (pl : Nat → P) (k : Nat)
    (hpl : ∀ g, g < k → playersFrom pa g = some (pl g))
    (hw : ∀ g, g < k → (sim g (pl g)).winner = 1 ∨ (sim g (pl g)).winner = 2) :
    runGames sim pa k = .ok ⟨expectedData sim pl k, expectedTarget sim pl k,
        expectedResult sim pl k⟩
    ∧ ∀ g, g < k →
        expectedData sim pl (g + 1)
          = expectedData sim pl g ++ (sim g (pl g)).vectors
        ∧ expectedTarget sim pl (g + 1)
          = expectedTarget sim pl g ++ List.replicate
              (sim g (pl g)).vectors.length (gameLabel (sim g (pl g)).winner) :=
  ⟨runGames_ok sim pa pl k hpl hw, fun _ _ => ⟨rfl, rfl⟩⟩

/-- Closed instance of uniform_contiguous_game_labels at a two-game run
won by player 2 whose first game buffers no vectors. -/
theorem uniform_contiguous_game_labels_witness :
    runGames simV (PlayerArg.single ()) 2
      = .ok ⟨expectedData simV plW 2, expectedTarget simV plW 2,
        expectedResult simV plW 2⟩ :=
  (uniform_contiguous_game_labels simV (PlayerArg.single ()) plW 2
    (fun _ _ => rfl) (fun _ _ => Or.inr rfl)).1

/-- C6: dataset generation is invoked exactly when the overwrite flag is
set or no file exists at the dataset path; with the flag cleared and a
file present no simulation is invoked and the file stays unchanged. -/
theorem regenerate_policy {D : Type} (o e : Bool) (existing fresh : D) :
    (regenerateDataset o e = true ↔ (o = true ∨ e = false))
    ∧ regenerateDataset false true = false
    ∧ datasetFileAfter false (some existing) fresh = some existing := by
  refine ⟨?_, rfl, rfl⟩
  cases o <;> cases e <;> simp [regenerateDataset]

/-- Closed instance of regenerate_policy with the flag cleared and a file
present. -/
theorem regenerate_policy_witness :
    (regenerateDataset false true = true ↔ (false = true ∨ true = false))
    ∧ regenerateDataset false true = false
    ∧ datasetFileAfter false (some 0) 1 = some 0 :=
  regenerate_policy false true 0 1

/-- C7: the sweep over layer counts 1, 2 and widths 16, 32 produces exactly
four artifacts, named model1x16, model1x32, model2x16, model2x32 with the
serialization suffix, created with the outer loop over layer counts and
the inner loop over widths. -/
theorem sweep_artifact_names :
    sweep_model_paths [1, 2] [16, 32]
      = ["model1x16.pkl", "model1x32.pkl", "model2x16.pkl", "model2x32.pkl"]
    ∧ (sweep_model_paths [1, 2] [16, 32]).length = 4
    ∧ sweepConfigs [1, 2] [16, 32] = [(1, 16), (1, 32), (2, 16), (2, 32)] :=
  ⟨rfl, rfl, rfl⟩

/-- C8: the hidden layer shape handed to the classifier for a sweep point
with n layers of width w has exactly n entries, each equal to w. -/
theorem hidden_layer_shape (n w : Nat) :
    hidden_layer_sizes n w = List.replicate n w
    ∧ (hidden_layer_sizes n w).length = n := by
  constructor
  · simp [hidden_layer_sizes, List.map_const']
  · simp [hidden_layer_sizes]

/-- Closed instance of hidden_layer_shape at two layers of width 16. -/
theorem hidden_layer_shape_witness :
    hidden_layer_sizes 2 16 = List.replicate 2 16
    ∧ (hidden_layer_sizes 2 16).length = 2 :=
  hidden_layer_shape 2 16

/-- C9: at a decision point that is not finished, one pass of the game loop
buffers the features of the given state and hands that same given state to
the strategy for its move, where the given state is the signed clone from
the perspective of the player whose turn it is exactly when the reported
phase is 1, and the unmodified state otherwise. -/
theorem phase_one_obscured_view {S M F P : Type} (e : Engine S M F P) (p : P)
    (fuel : Nat) (state : S) (acc : List F) (h : e.finished state = false) :
    playLoop e p (fuel + 1) state acc
      = playLoop e p fuel
          (e.next state (e.get_move p (given_state_of e state)))
          (acc ++ [e.features (given_state_of e state)])
    ∧ (e.get_phase state = 1 →
        given_state_of e state = e.clone state (e.whose_turn state))
    ∧ (e.get_phase state ≠ 1 → given_state_of e state = state) := by
  refine ⟨?_, fun h1 => by simp [given_state_of, h1],
    fun h1 => by simp [given_state_of, h1]⟩
  rw [playLoop]
  simp [h, given_state_of]

/-- Concrete engine over natural number states used to instantiate the
game-loop theorem: state 1 is unfinished and reports phase 1. -/
def demoEngine : Engine Nat Nat Nat Unit where
  finished := fun s => s == 5
  get_phase := fun s => (s : Int)
  whose_turn := fun s => (s : Int) + 1
  clone := fun s sig => s + 100 * sig.toNat
  next := fun s m => s + m
  features := fun s => s * 2
  get_move := fun _ s => s + 3

/-- Closed instance of phase_one_obscured_view at the unfinished phase-1
state 1 of the demo engine. -/
theorem phase_one_obscured_view_witness :
    playLoop demoEngine () 1 1 []
      = playLoop demoEngine () 0
          (demoEngine.next 1 (demoEngine.get_move () (given_state_of demoEngine 1)))
          ([] ++ [demoEngine.features (given_state_of demoEngine 1)])
    ∧ given_state_of demoEngine 1 = demoEngine.clone 1 (demoEngine.whose_turn 1) := by
  have h := phase_one_obscured_view demoEngine () 0 1 [] rfl
  exact ⟨h.1, h.2.1 rfl⟩

/-- C10: a winner outside of 1 and 2 in the very first game aborts the run
with the unbound-result name error right after the first feature vector of
that game is appended and before any label is, leaving data one entry
longer than target at the failure point; the same malformed winner in a
later game raises no error and silently labels every record of that game
with the label of the preceding game. -/
theorem undefined_winner_behavior :
    create_dataset (fun _ _ => (⟨[7], 3⟩ : GameTrace Nat)) (PlayerArg.single ()) 2
      = .error (.nameError ⟨[7], [], none⟩)
    ∧ (DSState.mk [7] [] none : DSState Nat).data.length
      = (DSState.mk [7] [] none : DSState Nat).target.length + 1
    ∧ create_dataset simX (PlayerArg.single ()) 3
      = .ok ⟨[1, 2, 3, 4], ["won", "won", "won", "won"], some "won"⟩ :=
  ⟨rfl, rfl, rfl⟩

end TrainMLBot
